import Mathlib

/-!
Verification of the churn-metrics core of a gym membership tracker
(`app/api/routes.py`).

Timestamps (`datetime`) are modelled as integer seconds since the epoch;
calendar dates (`date`) as integer day numbers.  Python's
`(a - b).days` on two datetimes is floor division of the difference in
seconds by 86400, and `//` is floor division, both `Int.fdiv` here.
Python floats are modelled as exact rationals `ℚ`.
-/

namespace Gym

/-- `(a - b).days` for two datetimes given in seconds: floor division of the
difference by 86400, as Python's `timedelta.days`. -/
def daysBetween (a b : Int) : Int := Int.fdiv (a - b) 86400

/-- `t.date()` for a datetime in seconds: the day number containing `t`. -/
def dateOf (t : Int) : Int := Int.fdiv t 86400

/-- The `Aluno` (member) row: numeric id (`matricula`), personal data,
plan id, enrollment date, active flag and optional cancellation date
(a calendar date, in days). -/
structure Aluno where
  matricula : Int
  nome : String
  data_nascimento : Int
  genero : String
  email : String
  plano_id : Int
  data_matricula : Int
  matricula_ativa : Bool
  data_cancelamento : Option Int
deriving DecidableEq, Repr

/-- The `Checkin` row: owning member id, entry timestamp (always present)
and optional exit timestamp, both datetimes in seconds. -/
structure Checkin where
  aluno_id : Int
  data_hora_entrada : Int
  data_hora_saida : Option Int
deriving DecidableEq, Repr

/-- The record returned by `calcular_metricas_churn` (routes.py:71-77). -/
structure Metricas where
  frequencia_semanal : ℚ
  tempo_ultimo_checkin : Int
  duracao_media : ℚ
  plano_id : Int
  churn : Int
deriving DecidableEq, Repr

/-- `datas_checkins`: the entry timestamps of the member's check-ins,
sorted ascending (routes.py:47-48). -/
def datasCheckins (checkins : List Checkin) : List Int :=
  (checkins.map fun c => c.data_hora_entrada).insertionSort (fun a b => a ≤ b)

/-- `semanas = max(1, (hoje - primeira_data).days // 7)` (routes.py:52),
where `primeira_data` is the head of the sorted entry list. -/
def semanas (hoje : Int) (checkins : List Checkin) : Int :=
  max 1 (Int.fdiv (daysBetween hoje ((datasCheckins checkins).headD 0)) 7)

/-- `duracoes`: for the check-ins whose exit timestamp is set, the visit
duration in minutes `(saida - entrada).total_seconds() / 60`
(routes.py:59-60), in the original query order. -/
def duracoes (checkins : List Checkin) : List ℚ :=
  checkins.filterMap fun c =>
    c.data_hora_saida.map fun s => ((s - c.data_hora_entrada : Int) : ℚ) / 60

/-- `calcular_metricas_churn` (routes.py:42-77), with the hidden inputs of
the Python function made explicit: `hoje` (read there from
`datetime.utcnow()`, line 43) and the member's check-in list (read there
by the database query on line 44). -/
def calcular_metricas_churn (hoje : Int) (aluno : Aluno)
    (checkins : List Checkin) : Metricas :=
  if checkins.isEmpty then
    { frequencia_semanal := 0
      tempo_ultimo_checkin := daysBetween hoje aluno.data_matricula
      duracao_media := 0
      plano_id := aluno.plano_id
      churn := if aluno.data_cancelamento.isSome then 1 else 0 }
  else
    { frequencia_semanal :=
        (checkins.length : ℚ) / ((semanas hoje checkins : Int) : ℚ)
      tempo_ultimo_checkin :=
        daysBetween hoje ((datasCheckins checkins).getLastD 0)
      duracao_media :=
        if (duracoes checkins).isEmpty then 0
        else (duracoes checkins).sum / ((duracoes checkins).length : ℚ)
      plano_id := aluno.plano_id
      churn := if aluno.data_cancelamento.isSome then 1 else 0 }

/-- The eligibility gate of `create_checkin` (routes.py:124-126): the
check-in is refused (`HTTPException 400 "Matrícula inativa"`) when the
member is not active and either has no cancellation date or the current
date is past it. -/
def checkinRecusado (data_atual : Int) (aluno : Aluno) : Bool :=
  if aluno.matricula_ativa then false
  else
    match aluno.data_cancelamento with
    | none => true
    | some d => decide (dateOf data_atual > d)

/-- The feature vector `X` built by `predict_churn` (routes.py:168-169):
`[frequencia_semanal, tempo_ultimo_checkin, duracao_media, plano_id]`,
without the churn label. -/
def vetorX (m : Metricas) : List ℚ :=
  [m.frequencia_semanal, (m.tempo_ultimo_checkin : ℚ),
   m.duracao_media, (m.plano_id : ℚ)]

/-- `predict_churn` (routes.py:157-175) with the classifier `modelo`
(`model.predict_proba`, an opaque external artifact) and the hidden
inputs made explicit: it derives the metrics, builds `X` and applies the
model to it unchanged. -/
def predict_churn (modelo : List ℚ → ℚ) (hoje : Int) (aluno : Aluno)
    (checkins : List Checkin) : ℚ :=
  modelo (vetorX (calcular_metricas_churn hoje aluno checkins))

/-- The payload of `POST /alunos` (`AlunoCreate`, routes.py:19-27), with
the date strings already parsed as in routes.py:90-96. -/
structure AlunoCreate where
  nome : String
  data_nascimento : Int
  genero : String
  email : String
  plano_id : Int
  data_matricula : Int
  matricula_ativa : Bool
  data_cancelamento : Option Int
deriving DecidableEq, Repr

/-- The relational store the endpoints read and write. -/
structure DBState where
  alunos : List Aluno
  checkins : List Checkin
deriving DecidableEq, Repr

/-- The empty database the service starts from. -/
def estadoVazio : DBState := { alunos := [], checkins := [] }

/-- Outcome of `POST /checkins`. -/
inductive CheckinResult where
  | alunoNaoEncontrado
  | matriculaInativa
  | criado (c : Checkin)
deriving DecidableEq, Repr

/-- `create_aluno` (routes.py:82-102): refuse a duplicate email,
otherwise insert a new member row (the id is assigned by the store;
here, the next index). -/
def create_aluno (payload : AlunoCreate) (s : DBState) : DBState × Bool :=
  if s.alunos.any fun a => a.email == payload.email then (s, false)
  else
    ({ s with alunos := s.alunos ++
        [{ matricula := s.alunos.length
           nome := payload.nome
           data_nascimento := payload.data_nascimento
           genero := payload.genero
           email := payload.email
           plano_id := payload.plano_id
           data_matricula := payload.data_matricula
           matricula_ativa := payload.matricula_ativa
           data_cancelamento := payload.data_cancelamento }] }, true)

/-- `create_checkin` (routes.py:113-138): look the member up, apply the
eligibility gate, and insert a check-in whose entry timestamp is the
current instant and whose exit timestamp is absent (routes.py:129-132
sets only `data_hora_entrada`). -/
def create_checkin (data_atual : Int) (aluno_id : Int) (s : DBState) :
    DBState × CheckinResult :=
  match s.alunos.find? fun a => a.matricula == aluno_id with
  | none => (s, CheckinResult.alunoNaoEncontrado)
  | some aluno =>
    if checkinRecusado data_atual aluno then (s, CheckinResult.matriculaInativa)
    else
      let novo : Checkin :=
        { aluno_id := aluno_id, data_hora_entrada := data_atual,
          data_hora_saida := none }
      ({ s with checkins := s.checkins ++ [novo] }, CheckinResult.criado novo)

/-- One request through the exposed interface.  The GET endpoints
(routes.py:105-108, 141-152, 157-175) only read the store. -/
inductive Step : DBState → DBState → Prop where
  | createAluno (p : AlunoCreate) (s : DBState) : Step s (create_aluno p s).1
  | createCheckin (t aluno_id : Int) (s : DBState) :
      Step s (create_checkin t aluno_id s).1
  | leitura (s : DBState) : Step s s

/-- States reachable from the empty store through the interface. -/
inductive Reachable : DBState → Prop where
  | vazio : Reachable estadoVazio
  | step (s t : DBState) : Reachable s → Step s t → Reachable t

/-- The mean duration described by the spec (§4.1 step 1e): keep exactly
the events whose exit timestamp is set, take `(exit − entry)` seconds
over 60 for each. -/
def duracoesComSaida (cs : List Checkin) : List ℚ :=
  (cs.filter fun c => c.data_hora_saida.isSome).map
    fun c =>
      ((c.data_hora_saida.getD c.data_hora_entrada - c.data_hora_entrada : Int) : ℚ) / 60

lemma duracoes_eq_duracoesComSaida (cs : List Checkin) :
    duracoes cs = duracoesComSaida cs := by
  induction cs with
  | nil => rfl
  | cons c t ih =>
    cases h : c.data_hora_saida with
    | none =>
      simp [duracoes, duracoesComSaida, List.filterMap_cons, List.filter_cons,
        h] at ih ⊢
      exact ih
    | some s =>
      simp [duracoes, duracoesComSaida, List.filterMap_cons, List.filter_cons,
        h] at ih ⊢
      exact ih

lemma datasCheckins_perm (cs : List Checkin) :
    (datasCheckins cs).Perm (cs.map fun c => c.data_hora_entrada) :=
  List.perm_insertionSort _ _

lemma datasCheckins_sorted (cs : List Checkin) :
    (datasCheckins cs).Sorted fun a b => a ≤ b :=
  List.sorted_insertionSort _ _

lemma datasCheckins_ne_nil {cs : List Checkin} (h : cs ≠ []) :
    datasCheckins cs ≠ [] := by
  intro hnil
  have hlen := (datasCheckins_perm cs).length_eq
  rw [hnil] at hlen
  simp only [List.length_nil, List.length_map] at hlen
  exact h (List.eq_nil_of_length_eq_zero hlen.symm)

lemma headD_mem {l : List Int} (h : l ≠ []) (d : Int) : l.headD d ∈ l := by
  cases l with
  | nil => exact absurd rfl h
  | cons a t => simp [List.headD]

lemma getLastD_mem {l : List Int} (h : l ≠ []) (d : Int) : l.getLastD d ∈ l := by
  induction l generalizing d with
  | nil => exact absurd rfl h
  | cons a t ih =>
    cases t with
    | nil => simp
    | cons b u =>
      rw [List.getLastD_cons]
      exact List.mem_cons_of_mem a (ih (by simp) a)

lemma headD_le_of_sorted {l : List Int}
    (hs : l.Sorted fun a b => a ≤ b) {x : Int} (hx : x ∈ l) (d : Int) :
    l.headD d ≤ x := by
  cases l with
  | nil => cases hx
  | cons a t =>
    rcases List.mem_cons.mp hx with rfl | hxt
    · simp
    · simpa using (List.sorted_cons.mp hs).1 x hxt

/-- `primeira_data` (routes.py:51) is the smallest entry timestamp. -/
lemma headD_datasCheckins_eq {cs : List Checkin} (h : cs ≠ []) {e : Int}
    (hmem : e ∈ cs.map fun c => c.data_hora_entrada)
    (hmin : ∀ x ∈ cs.map fun c => c.data_hora_entrada, e ≤ x) :
    (datasCheckins cs).headD 0 = e := by
  have hmem' : e ∈ datasCheckins cs := (datasCheckins_perm cs).mem_iff.mpr hmem
  have h1 : (datasCheckins cs).headD 0 ≤ e :=
    headD_le_of_sorted (datasCheckins_sorted cs) hmem' 0
  have h2 : e ≤ (datasCheckins cs).headD 0 :=
    hmin _ ((datasCheckins_perm cs).mem_iff.mp
      (headD_mem (datasCheckins_ne_nil h) 0))
  exact le_antisymm h1 h2

lemma daysBetween_nonneg {a b : Int} (h : b ≤ a) : 0 ≤ daysBetween a b :=
  Int.fdiv_nonneg (sub_nonneg.mpr h) (by norm_num)

lemma frequencia_eq (hoje : Int) (aluno : Aluno) {cs : List Checkin}
    (h : cs ≠ []) :
    (calcular_metricas_churn hoje aluno cs).frequencia_semanal
      = (cs.length : ℚ) / ((semanas hoje cs : Int) : ℚ) := by
  cases cs with
  | nil => exact absurd rfl h
  | cons c t => simp [calcular_metricas_churn]

lemma tempo_eq (hoje : Int) (aluno : Aluno) {cs : List Checkin}
    (h : cs ≠ []) :
    (calcular_metricas_churn hoje aluno cs).tempo_ultimo_checkin
      = daysBetween hoje ((datasCheckins cs).getLastD 0) := by
  cases cs with
  | nil => exact absurd rfl h
  | cons c t => simp [calcular_metricas_churn]

lemma duracao_eq (hoje : Int) (aluno : Aluno) {cs : List Checkin}
    (h : cs ≠ []) :
    (calcular_metricas_churn hoje aluno cs).duracao_media
      = (if (duracoes cs).isEmpty then 0
         else (duracoes cs).sum / ((duracoes cs).length : ℚ)) := by
  cases cs with
  | nil => exact absurd rfl h
  | cons c t => simp [calcular_metricas_churn]

lemma churn_eq_of_cancelamento (hoje : Int) (aluno : Aluno)
    (cs : List Checkin) :
    (calcular_metricas_churn hoje aluno cs).churn
      = if aluno.data_cancelamento.isSome then 1 else 0 := by
  unfold calcular_metricas_churn
  split <;> rfl

lemma plano_eq (hoje : Int) (aluno : Aluno) (cs : List Checkin) :
    (calcular_metricas_churn hoje aluno cs).plano_id = aluno.plano_id := by
  unfold calcular_metricas_churn
  split <;> rfl

/-- C1: for every non-empty event history, the derived weekly check-in
frequency equals `count(events) / max(1, (now - earliest_entry).days // 7)`,
where `earliest_entry` is the smallest entry timestamp and the clamped
floor-division denominator is never zero. -/
theorem C1_frequencia_semanal (hoje : Int) (aluno : Aluno)
    (cs : List Checkin) (e : Int) (hne : cs ≠ [])
    (hmem : e ∈ cs.map fun c => c.data_hora_entrada)
    (hmin : ∀ x ∈ cs.map fun c => c.data_hora_entrada, e ≤ x) :
    (calcular_metricas_churn hoje aluno cs).frequencia_semanal
      = (cs.length : ℚ)
        / ((max 1 (Int.fdiv (daysBetween hoje e) 7) : Int) : ℚ) := by
  rw [frequencia_eq hoje aluno hne]
  unfold semanas
  rw [headD_datasCheckins_eq hne hmem hmin]

/-- Witness for C1: a single check-in at the epoch, observed 14 days
later: frequency `1 / max(1, 14 // 7) = 1 / 2`. -/
theorem C1_frequencia_semanal_witness :
    (([⟨1, 0, none⟩] : List Checkin) ≠ [] ∧
      (0 : Int) ∈ ([⟨1, 0, none⟩] : List Checkin).map
        (fun c => c.data_hora_entrada) ∧
      ∀ x ∈ ([⟨1, 0, none⟩] : List Checkin).map
        fun c => c.data_hora_entrada, (0 : Int) ≤ x) ∧
    (calcular_metricas_churn 1209600 ⟨7, "", 0, "", "", 1, 0, true, none⟩
        [⟨1, 0, none⟩]).frequencia_semanal
      = (([⟨1, 0, none⟩] : List Checkin).length : ℚ)
        / ((max 1 (Int.fdiv (daysBetween 1209600 0) 7) : Int) : ℚ) :=
  ⟨⟨by decide, by decide, by decide⟩,
    C1_frequencia_semanal 1209600 ⟨7, "", 0, "", "", 1, 0, true, none⟩
      [⟨1, 0, none⟩] 0 (by decide) (by decide) (by decide)⟩

/-- C2: for an empty event history the derived record has weekly
frequency 0, average duration 0 and `days_since_last =
(now − enrollment_start).days`. -/
theorem C2_historico_vazio (hoje : Int) (aluno : Aluno) :
    (calcular_metricas_churn hoje aluno []).frequencia_semanal = 0 ∧
    (calcular_metricas_churn hoje aluno []).duracao_media = 0 ∧
    (calcular_metricas_churn hoje aluno []).tempo_ultimo_checkin
      = daysBetween hoje aluno.data_matricula :=
  ⟨rfl, rfl, rfl⟩

/-- C3: the average duration is the mean, over exactly the events whose
exit timestamp is set, of `(exit − entry)` seconds over 60, and 0 when no
event has an exit timestamp (`duracoesComSaida` is the spec-side
filter-then-map). -/
theorem C3_duracao_media (hoje : Int) (aluno : Aluno) (cs : List Checkin) :
    (calcular_metricas_churn hoje aluno cs).duracao_media
      = (if duracoesComSaida cs = [] then 0
         else (duracoesComSaida cs).sum / ((duracoesComSaida cs).length : ℚ)) := by
  rcases eq_or_ne cs [] with rfl | hne
  · simp [calcular_metricas_churn, duracoesComSaida]
  · rw [duracao_eq hoje aluno hne, duracoes_eq_duracoesComSaida]
    rcases eq_or_ne (duracoesComSaida cs) [] with h | h <;>
      simp [h, List.isEmpty_iff]

/-- C4: the churn label is 1 exactly when the cancellation date is set,
and does not depend on the active flag, the reference instant, or the
event history. -/
theorem C4_churn_label (hoje hoje2 : Int) (aluno : Aluno) (b : Bool)
    (cs cs2 : List Checkin) :
    ((calcular_metricas_churn hoje aluno cs).churn = 1
      ↔ aluno.data_cancelamento.isSome = true) ∧
    (calcular_metricas_churn hoje aluno cs).churn
      = (calcular_metricas_churn hoje2
          { aluno with matricula_ativa := b } cs2).churn := by
  constructor
  · rw [churn_eq_of_cancelamento]
    rcases h : aluno.data_cancelamento with _ | d <;> simp [h]
  · rw [churn_eq_of_cancelamento, churn_eq_of_cancelamento]

/-- C5: a check-in attempt is refused exactly when the active flag is
false and (there is no cancellation date, or the current date is strictly
after it); in particular an inactive member with no cancellation date is
refused and an active member never is. -/
theorem C5_matricula_inativa (data_atual : Int) (aluno : Aluno) :
    checkinRecusado data_atual aluno = true
      ↔ (aluno.matricula_ativa = false ∧
          (aluno.data_cancelamento = none ∨
            ∃ d, aluno.data_cancelamento = some d ∧ dateOf data_atual > d)) := by
  cases hba : aluno.matricula_ativa <;>
    cases hc : aluno.data_cancelamento <;>
      simp [checkinRecusado, hba, hc]

/-- C6: the code has no guard for `now` preceding an event's entry: with
`now` at the epoch and a single entry 10 days later, the function returns
a record with `tempo_ultimo_checkin = -10` instead of failing. -/
theorem C6_sem_guarda_de_entrada_futura :
    (calcular_metricas_churn 0 ⟨3, "", 0, "", "", 1, 0, true, none⟩
        [⟨3, 864000, none⟩]).tempo_ultimo_checkin = -10 := by
  decide

/-- C7: the source reads the clock inside the function (routes.py:43), so
two invocations with identical member and (empty) event history give
different records as the wall clock advances from day 30 to day 31 after
enrollment. -/
theorem C7_depende_do_relogio :
    (calcular_metricas_churn (30 * 86400)
        ⟨4, "", 0, "", "", 1, 0, true, none⟩ []).tempo_ultimo_checkin = 30 ∧
    (calcular_metricas_churn (31 * 86400)
        ⟨4, "", 0, "", "", 1, 0, true, none⟩ []).tempo_ultimo_checkin = 31 := by
  constructor <;> decide

lemma duracoes_nonneg {cs : List Checkin}
    (hsai : ∀ c ∈ cs,
      c.data_hora_entrada ≤ c.data_hora_saida.getD c.data_hora_entrada) :
    ∀ q ∈ duracoes cs, 0 ≤ q := by
  intro q hq
  rcases List.mem_filterMap.mp hq with ⟨c, hc, hfc⟩
  rcases hs : c.data_hora_saida with _ | s
  · rw [hs] at hfc
    cases hfc
  · rw [hs] at hfc
    simp only [Option.map_some'] at hfc
    have hle := hsai c hc
    rw [hs] at hle
    simp only [Option.getD_some] at hle
    rw [← Option.some.inj hfc]
    have h60 : (0 : ℚ) ≤ 60 := by norm_num
    refine div_nonneg ?_ h60
    have : (0 : Int) ≤ s - c.data_hora_entrada := sub_nonneg.mpr hle
    exact_mod_cast this

/-- C8 counterexample: the claim quantifies over every input, but with
`now` at the epoch and an entry 7 days later, `tempo_ultimo_checkin`
(days since last check-in) is negative. -/
theorem C8_contraexemplo :
    ¬ (0 ≤ (calcular_metricas_churn 0 ⟨5, "", 0, "", "", 2, 0, true, none⟩
        [⟨5, 604800, none⟩]).tempo_ultimo_checkin) := by
  decide

/-- C8 (amended): when `now` is not before the enrollment date nor any
entry timestamp, and no recorded exit precedes its entry, the returned
record satisfies all the stated invariants. -/
theorem C8_invariantes (hoje : Int) (aluno : Aluno) (cs : List Checkin)
    (hmat : aluno.data_matricula ≤ hoje)
    (hent : ∀ c ∈ cs, c.data_hora_entrada ≤ hoje)
    (hsai : ∀ c ∈ cs,
      c.data_hora_entrada ≤ c.data_hora_saida.getD c.data_hora_entrada) :
    0 ≤ (calcular_metricas_churn hoje aluno cs).frequencia_semanal ∧
    0 ≤ (calcular_metricas_churn hoje aluno cs).tempo_ultimo_checkin ∧
    0 ≤ (calcular_metricas_churn hoje aluno cs).duracao_media ∧
    (calcular_metricas_churn hoje aluno cs).plano_id = aluno.plano_id ∧
    ((calcular_metricas_churn hoje aluno cs).churn = 0 ∨
      (calcular_metricas_churn hoje aluno cs).churn = 1) := by
  refine ⟨?_, ?_, ?_, plano_eq hoje aluno cs, ?_⟩
  · rcases eq_or_ne cs [] with rfl | hne
    · exact le_of_eq rfl
    · rw [frequencia_eq hoje aluno hne]
      refine div_nonneg (Nat.cast_nonneg _) ?_
      have h1 : (0 : Int) ≤ semanas hoje cs :=
        le_trans (by norm_num) (le_max_left 1 _)
      exact_mod_cast h1
  · rcases eq_or_ne cs [] with rfl | hne
    · exact daysBetween_nonneg hmat
    · rw [tempo_eq hoje aluno hne]
      have hmem : (datasCheckins cs).getLastD 0
          ∈ cs.map fun c => c.data_hora_entrada :=
        (datasCheckins_perm cs).mem_iff.mp
          (getLastD_mem (datasCheckins_ne_nil hne) 0)
      rcases List.mem_map.mp hmem with ⟨c, hc, hcEq⟩
      exact daysBetween_nonneg (hcEq ▸ hent c hc)
  · rcases eq_or_ne cs [] with rfl | hne
    · exact le_of_eq rfl
    · rw [duracao_eq hoje aluno hne]
      rcases eq_or_ne (duracoes cs) [] with h | h
      · simp [h]
      · rw [if_neg (by simpa [List.isEmpty_iff] using h)]
        exact div_nonneg (List.sum_nonneg (duracoes_nonneg hsai))
          (Nat.cast_nonneg _)
  · rw [churn_eq_of_cancelamento]
    rcases aluno.data_cancelamento with _ | d
    · exact Or.inl rfl
    · exact Or.inr rfl

/-- Witness for C8 (amended): enrollment at the epoch, one visit from the
epoch to minute 45, observed 30 days later. -/
theorem C8_invariantes_witness :
    ((0 : Int) ≤ 30 * 86400 ∧
      (∀ c ∈ ([⟨6, 0, some 2700⟩] : List Checkin),
        c.data_hora_entrada ≤ 30 * 86400) ∧
      (∀ c ∈ ([⟨6, 0, some 2700⟩] : List Checkin),
        c.data_hora_entrada ≤ c.data_hora_saida.getD c.data_hora_entrada)) ∧
    (0 ≤ (calcular_metricas_churn (30 * 86400)
        ⟨6, "", 0, "", "", 1, 0, true, none⟩
        [⟨6, 0, some 2700⟩]).frequencia_semanal ∧
      0 ≤ (calcular_metricas_churn (30 * 86400)
        ⟨6, "", 0, "", "", 1, 0, true, none⟩
        [⟨6, 0, some 2700⟩]).tempo_ultimo_checkin ∧
      0 ≤ (calcular_metricas_churn (30 * 86400)
        ⟨6, "", 0, "", "", 1, 0, true, none⟩
        [⟨6, 0, some 2700⟩]).duracao_media ∧
      (calcular_metricas_churn (30 * 86400)
        ⟨6, "", 0, "", "", 1, 0, true, none⟩
        [⟨6, 0, some 2700⟩]).plano_id
          = (⟨6, "", 0, "", "", 1, 0, true, none⟩ : Aluno).plano_id ∧
      ((calcular_metricas_churn (30 * 86400)
        ⟨6, "", 0, "", "", 1, 0, true, none⟩
        [⟨6, 0, some 2700⟩]).churn = 0 ∨
        (calcular_metricas_churn (30 * 86400)
        ⟨6, "", 0, "", "", 1, 0, true, none⟩
        [⟨6, 0, some 2700⟩]).churn = 1)) :=
  ⟨⟨by decide, by decide, by decide⟩,
    C8_invariantes (30 * 86400) ⟨6, "", 0, "", "", 1, 0, true, none⟩
      [⟨6, 0, some 2700⟩] (by decide) (by decide) (by decide)⟩

/-- C9: the prediction glue applies the classifier to the ordered
4-element vector `[frequencia_semanal, tempo_ultimo_checkin,
duracao_media, plano_id]` unchanged, and the vector does not depend on
the cancellation date (the source of the churn label). -/
theorem C9_vetor_de_features (modelo : List ℚ → ℚ) (hoje : Int)
    (aluno : Aluno) (cs : List Checkin) (d : Option Int) :
    predict_churn modelo hoje aluno cs
      = modelo [(calcular_metricas_churn hoje aluno cs).frequencia_semanal,
          ((calcular_metricas_churn hoje aluno cs).tempo_ultimo_checkin : ℚ),
          (calcular_metricas_churn hoje aluno cs).duracao_media,
          ((calcular_metricas_churn hoje aluno cs).plano_id : ℚ)] ∧
    vetorX (calcular_metricas_churn hoje aluno cs)
      = vetorX (calcular_metricas_churn hoje
          { aluno with data_cancelamento := d } cs) := by
  refine ⟨rfl, ?_⟩
  unfold vetorX calcular_metricas_churn
  by_cases h : cs.isEmpty <;> simp [h]

lemma create_aluno_checkins (p : AlunoCreate) (s : DBState) :
    (create_aluno p s).1.checkins = s.checkins := by
  unfold create_aluno
  split <;> rfl

lemma create_checkin_mem_saida {t i : Int} {s : DBState} {c : Checkin}
    (hc : c ∈ (create_checkin t i s).1.checkins) :
    c ∈ s.checkins ∨ c.data_hora_saida = none := by
  unfold create_checkin at hc
  rcases hfind : s.alunos.find? fun a => a.matricula == i with _ | a
  · rw [hfind] at hc
    exact Or.inl hc
  · rw [hfind] at hc
    simp only at hc
    by_cases hrej : checkinRecusado t a
    · rw [if_pos hrej] at hc
      exact Or.inl hc
    · rw [if_neg hrej] at hc
      simp only [List.mem_append, List.mem_singleton] at hc
      rcases hc with hc | rfl
      · exact Or.inl hc
      · exact Or.inr rfl

lemma saida_none_of_reachable {s : DBState} (h : Reachable s) :
    ∀ c ∈ s.checkins, c.data_hora_saida = none := by
  induction h with
  | vazio => intro c hc; cases hc
  | step s t hs hstep ih =>
    cases hstep with
    | createAluno p u =>
      intro c hc
      rw [create_aluno_checkins] at hc
      exact ih c hc
    | createCheckin tm i u =>
      intro c hc
      rcases create_checkin_mem_saida hc with hc2 | hnone
      · exact ih c hc2
      · exact hnone
    | leitura u =>
      exact ih

lemma duracoes_eq_nil_of_saida_none {cs : List Checkin}
    (h : ∀ c ∈ cs, c.data_hora_saida = none) : duracoes cs = [] := by
  induction cs with
  | nil => rfl
  | cons c t ih =>
    have hc := h c (List.mem_cons_self c t)
    simp only [duracoes, List.filterMap_cons, hc, Option.map_none']
    exact ih fun d hd => h d (List.mem_cons_of_mem c hd)

lemma duracao_media_eq_zero_of_saida_none (hoje : Int) (aluno : Aluno)
    {cs : List Checkin} (h : ∀ c ∈ cs, c.data_hora_saida = none) :
    (calcular_metricas_churn hoje aluno cs).duracao_media = 0 := by
  rcases eq_or_ne cs [] with rfl | hne
  · rfl
  · rw [duracao_eq hoje aluno hne, duracoes_eq_nil_of_saida_none h]
    rfl

/-- C10: a check-in created through the interface carries the creation
instant as entry and no exit timestamp; hence in every state reachable
through the interface all stored check-ins lack an exit timestamp, and
the derived average duration is always 0. -/
theorem C10_media_sempre_zero (s : DBState) (h : Reachable s) :
    (∀ t i : Int, ∀ u : DBState, ∀ c : Checkin,
        (create_checkin t i u).2 = CheckinResult.criado c →
          c.data_hora_entrada = t ∧ c.data_hora_saida = none) ∧
    (∀ c ∈ s.checkins, c.data_hora_saida = none) ∧
    (∀ (hoje : Int) (aluno : Aluno),
      (calcular_metricas_churn hoje aluno
          (s.checkins.filter fun c =>
            c.aluno_id == aluno.matricula)).duracao_media = 0) := by
  refine ⟨?_, saida_none_of_reachable h, ?_⟩
  · intro t i u c hc
    unfold create_checkin at hc
    rcases hfind : u.alunos.find? fun a => a.matricula == i with _ | a
    · rw [hfind] at hc
      cases hc
    · rw [hfind] at hc
      simp only at hc
      by_cases hrej : checkinRecusado t a
      · rw [if_pos hrej] at hc
        cases hc
      · rw [if_neg hrej] at hc
        simp only [CheckinResult.criado.injEq] at hc
        rw [← hc]
        exact ⟨rfl, rfl⟩
  · intro hoje aluno
    refine duracao_media_eq_zero_of_saida_none hoje aluno fun c hc => ?_
    exact saida_none_of_reachable h c (List.mem_of_mem_filter hc)

/-- Witness for C10: the state obtained from the empty store by creating
one member and one check-in. -/
theorem C10_media_sempre_zero_witness :
    (∀ t i : Int, ∀ u : DBState, ∀ c : Checkin,
        (create_checkin t i u).2 = CheckinResult.criado c →
          c.data_hora_entrada = t ∧ c.data_hora_saida = none) ∧
    (∀ c ∈ ((create_checkin 100 0 (create_aluno
        ⟨"ana", 0, "f", "ana@x", 1, 0, true, none⟩
        estadoVazio).1).1).checkins, c.data_hora_saida = none) ∧
    (∀ (hoje : Int) (aluno : Aluno),
      (calcular_metricas_churn hoje aluno
          (((create_checkin 100 0 (create_aluno
            ⟨"ana", 0, "f", "ana@x", 1, 0, true, none⟩
            estadoVazio).1).1).checkins.filter fun c =>
              c.aluno_id == aluno.matricula)).duracao_media = 0) :=
  C10_media_sempre_zero _
    (Reachable.step _ _
      (Reachable.step _ _ Reachable.vazio
        (Step.createAluno ⟨"ana", 0, "f", "ana@x", 1, 0, true, none⟩
          estadoVazio))
      (Step.createCheckin 100 0 _))

/-- Spec §8 scenario B: three check-ins at days 0, 7 and 14, observed at
day 14: the weekly frequency is `3 / max(1, 14 // 7) = 3 / 2`. -/
example :
    (Gym.calcular_metricas_churn (14 * 86400)
      ⟨0, "", 0, "", "", 1, 0, true, none⟩
      [⟨0, 0, none⟩, ⟨0, 7 * 86400, none⟩, ⟨0, 14 * 86400, none⟩]).frequencia_semanal
      = 3 / 2 := by
  norm_num [Gym.calcular_metricas_churn, Gym.semanas, Gym.datasCheckins,
    Gym.daysBetween, Gym.duracoes, List.insertionSort, List.orderedInsert,
    Int.fdiv]

/-- Spec §8 scenario C: one visit with entry at the epoch and exit 45
minutes later gives an average duration of 45 minutes. -/
example :
    (Gym.calcular_metricas_churn (86400)
      ⟨0, "", 0, "", "", 1, 0, true, none⟩
      [⟨0, 0, some 2700⟩]).duracao_media = 45 := by
  norm_num [Gym.calcular_metricas_churn, Gym.duracoes, List.filterMap_cons,
    Option.map]

end Gym
